import Mathlib

/-!
Verification development for the video-game tracker application in
`src/main.py`.  The application logic relevant to the claims is embedded
shallowly: pure Python helpers become Lean functions on `List Char` / `String`,
the SQL statements issued by the application are embedded as functions over an
explicit relational state (`Tables`), and the transaction discipline
(execute / commit / rollback) is modelled by an explicit runner.

Python strings are modelled as `List Char` (or Lean `String` where more
convenient); machine integers do not overflow in any modelled code path, so
`Nat` / `Int` / `ℚ` are used directly.  SQL `NULL` becomes `Option`.
-/

namespace VGT

/-! ## Python primitives

Helpers mirroring the Python built-ins used by `main.py`: `int(...)`,
`float(...)`, `str.split`, `bytes.hex`, `bytes.fromhex`.  Each is written to
follow the documented CPython behaviour of the corresponding built-in, since
that behaviour is what the application code invokes.
-/

/-- Python whitespace stripped by `int(...)` / `float(...)` conversion
(space, tab, newline, carriage return, vertical tab, form feed). -/
def isPySpace (c : Char) : Bool :=
  c = ' ' || c = '\t' || c = '\n' || c = '\r' || c = Char.ofNat 11 || c = Char.ofNat 12

/-- Leading and trailing whitespace removal, as `int`/`float` do before
parsing their argument. -/
def pyStrip (s : List Char) : List Char :=
  ((s.dropWhile isPySpace).reverse.dropWhile isPySpace).reverse

/-- Value accumulator for a run of decimal digits that may contain single
underscores between digits (PEP 515, accepted by `int` and `float`).
Returns the accumulated value, the number of digits consumed, and the
unconsumed remainder of the input. -/
def takeDigitRun (acc : Nat) (cnt : Nat) : List Char → (Nat × Nat × List Char)
  | [] => (acc, cnt, [])
  | c :: rest =>
    if c.isDigit then takeDigitRun (10 * acc + (c.toNat - 48)) (cnt + 1) rest
    else if c = '_' ∧ 0 < cnt then
      match rest with
      | d :: rest2 =>
        if d.isDigit then takeDigitRun (10 * acc + (d.toNat - 48)) (cnt + 1) rest2
        else (acc, cnt, c :: rest)
      | [] => (acc, cnt, c :: rest)
    else (acc, cnt, c :: rest)

/-- Parse of a complete run of digits (with optional underscores); fails when
no digit is consumed or when input remains. -/
def parseAllDigits (s : List Char) : Option Nat :=
  match takeDigitRun 0 0 s with
  | (v, cnt, []) => if cnt = 0 then none else some v
  | _ => none

/-- Model of the Python built-in `int(str)`: optional surrounding whitespace,
optional sign, then a non-empty digit run.  `search_games` uses it for the
release-year filter; a `ValueError` is modelled as `none`. -/
def pyParseInt (s : List Char) : Option Int :=
  match pyStrip s with
  | [] => none
  | c :: rest =>
    if c = '+' then (parseAllDigits rest).map Int.ofNat
    else if c = '-' then (parseAllDigits rest).map (fun n => -(n : Int))
    else (parseAllDigits (c :: rest)).map Int.ofNat

/-- Exact numeric value held as an unreduced fraction `num / den` with a
positive denominator.  Every comparison goes through cross-multiplication, so
no normalisation is needed; this represents the exact rational values SQL
`AVG` and the decimal literals of Python `float` denote (the literals of this
application are far below any binary-float precision issue that would affect
the comparisons modelled here). -/
structure DecValue where
  num : Int
  den : Nat
deriving DecidableEq, Repr

/-- Value order on fractions with positive denominators. -/
def decValueLt (a b : DecValue) : Prop :=
  a.num * (b.den : Int) < b.num * (a.den : Int)

instance (a b : DecValue) : Decidable (decValueLt a b) := by
  unfold decValueLt
  exact inferInstance

/-- Value equality on fractions with positive denominators. -/
def decValueEq (a b : DecValue) : Prop :=
  a.num * (b.den : Int) = b.num * (a.den : Int)

instance (a b : DecValue) : Decidable (decValueEq a b) := by
  unfold decValueEq
  exact inferInstance

/-- Non-strict value order on fractions with positive denominators. -/
def decValueLe (a b : DecValue) : Prop :=
  a.num * (b.den : Int) ≤ b.num * (a.den : Int)

instance (a b : DecValue) : Decidable (decValueLe a b) := by
  unfold decValueLe
  exact inferInstance

/-- Values of the Python built-in `float(...)`, including the infinities and
NaN it accepts. -/
inductive PyFloat where
  | finite (v : DecValue)
  | posInf
  | negInf
  | nan
deriving DecidableEq, Repr

/-- IEEE-style less-than used by Python when comparing floats: NaN compares
false against everything. -/
def pyFloatLt : PyFloat → PyFloat → Bool
  | .nan, _ => false
  | _, .nan => false
  | .negInf, .negInf => false
  | .negInf, _ => true
  | _, .negInf => false
  | .finite a, .finite b => decide (decValueLt a b)
  | .finite _, .posInf => true
  | .posInf, _ => false

/-- IEEE-style equality used by Python when comparing floats: NaN equals
nothing, not even itself. -/
def pyFloatEqB : PyFloat → PyFloat → Bool
  | .nan, _ => false
  | _, .nan => false
  | .finite a, .finite b => decide (decValueEq a b)
  | .posInf, .posInf => true
  | .negInf, .negInf => true
  | _, _ => false

/-- Case-insensitive match of a keyword, used for `inf` / `infinity` / `nan`. -/
def ciEq (s t : List Char) : Bool :=
  s.map Char.toLower == t.map Char.toLower

/-- Numeric part of a float literal after the optional sign:
`digits [. digits] [exp]` or `. digits [exp]`, with an optional
`e`/`E` exponent. -/
def parseFloatMagnitude (s : List Char) : Option DecValue :=
  let (ip, ic, r1) := takeDigitRun 0 0 s
  let (fp, fc, r2) :=
    match r1 with
    | '.' :: r => takeDigitRun 0 0 r
    | _ => (0, 0, r1)
  if ic + fc = 0 then none
  else
    let mantNum : Nat := ip * 10 ^ fc + fp
    let mantDen : Nat := 10 ^ fc
    match r2 with
    | [] => some ⟨(mantNum : Int), mantDen⟩
    | 'e' :: r3 => applyFloatExponent mantNum mantDen r3
    | 'E' :: r3 => applyFloatExponent mantNum mantDen r3
    | _ => none
where
  /-- Exponent: optional sign then a digit run consuming the whole rest;
  scales the mantissa fraction by the matching power of ten. -/
  applyFloatExponent (num den : Nat) (s : List Char) : Option DecValue :=
    match s with
    | '+' :: r => (parseAllDigits r).map (fun e => ⟨(num * 10 ^ e : Nat), den⟩)
    | '-' :: r => (parseAllDigits r).map (fun e => ⟨(num : Nat), den * 10 ^ e⟩)
    | r => (parseAllDigits r).map (fun e => ⟨(num * 10 ^ e : Nat), den⟩)

/-- Model of the Python built-in `float(str)`: optional whitespace, optional
sign, then either a decimal magnitude or one of the keywords
`inf` / `infinity` / `nan` (case-insensitive).  `search_games` uses it for the
max-price filter; a `ValueError` is modelled as `none`. -/
def pyParseFloat (s : List Char) : Option PyFloat :=
  match pyStrip s with
  | [] => none
  | c :: rest =>
    if c = '+' then pyParseFloatBody rest false
    else if c = '-' then pyParseFloatBody rest true
    else pyParseFloatBody (c :: rest) false
where
  /-- Body after the optional sign; `neg` records a leading minus. -/
  pyParseFloatBody (s : List Char) (neg : Bool) : Option PyFloat :=
    if ciEq s ('i' :: 'n' :: 'f' :: []) ||
       ciEq s ('i' :: 'n' :: 'f' :: 'i' :: 'n' :: 'i' :: 't' :: 'y' :: []) then
      some (if neg then .negInf else .posInf)
    else if ciEq s ('n' :: 'a' :: 'n' :: []) then some .nan
    else (parseFloatMagnitude s).map
      (fun v => .finite (if neg then ⟨-v.num, v.den⟩ else v))

/-! ## Password hashing (`hash_password` / `check_password`, `main.py` 13-28)

The PBKDF2 call `hashlib.pbkdf2_hmac('sha256', password, salt, 100000)` is an
external primitive; it is modelled as an arbitrary function `H` from the
password text and the salt bytes to the digest bytes, universally quantified
in the theorems.  Bytes are `Nat` values below 256.
-/

/-- Lowercase hexadecimal digit for a value below 16, as produced by Python
`bytes.hex()`. -/
def hexDigitChar (n : Nat) : Char :=
  if n < 10 then Char.ofNat (48 + n) else Char.ofNat (87 + n)

/-- Hex expansion of one byte: high nibble then low nibble. -/
def byteToHexChars (b : Nat) : List Char :=
  [hexDigitChar (b / 16), hexDigitChar (b % 16)]

/-- Model of Python `bytes.hex()`: concatenation of two lowercase hex digits
per byte. -/
def bytesHex (bs : List Nat) : List Char :=
  (bs.map byteToHexChars).flatten

/-- Value of a single hexadecimal digit character, upper or lower case. -/
def hexDigitVal (c : Char) : Option Nat :=
  if '0' ≤ c ∧ c ≤ '9' then some (c.toNat - 48)
  else if 'a' ≤ c ∧ c ≤ 'f' then some (c.toNat - 87)
  else if 'A' ≤ c ∧ c ≤ 'F' then some (c.toNat - 55)
  else none

/-- Model of Python `bytes.fromhex`: ASCII whitespace between byte pairs is
skipped, then pairs of hex digits are decoded; anything else raises
`ValueError`, modelled as `none`. -/
def fromHexChars : List Char → Option (List Nat)
  | [] => some []
  | c :: rest =>
    if isPySpace c then fromHexChars rest
    else
      match hexDigitVal c, rest with
      | some hi, c2 :: rest2 =>
        match hexDigitVal c2 with
        | some lo => (fromHexChars rest2).map (fun bs => (16 * hi + lo) :: bs)
        | none => none
      | _, _ => none

/-- Model of the Python split on the colon character used by
`check_password`: every colon separates fields, so `n` colons produce `n + 1`
parts. -/
def splitOnColon : List Char → List (List Char)
  | [] => [[]]
  | c :: rest =>
    match splitOnColon rest with
    | [] => [[]]
    | g :: gs => if c = ':' then [] :: g :: gs else (c :: g) :: gs

/-- Embedding of `hash_password` (`main.py` 13-16): the stored credential is
`salt.hex() ++ ":" ++ digest.hex()` where the digest is `H password salt`.
The random 16-byte salt drawn from `os.urandom` is passed explicitly. -/
def hash_password (H : List Char → List Nat → List Nat) (salt : List Nat)
    (password : List Char) : List Char :=
  bytesHex salt ++ ':' :: bytesHex (H password salt)

/-- Decode-and-compare tail of `check_password`: decode both hex fields,
re-derive the digest with the embedded salt and compare; a decoding failure
is the caught `ValueError`. -/
def checkParts (H : List Char → List Nat → List Nat)
    (provided saltHex hashHex : List Char) : Bool :=
  match fromHexChars saltHex, fromHexChars hashHex with
  | some salt, some storedHash => H provided salt == storedHash
  | _, _ => false

/-- Embedding of `check_password` (`main.py` 20-28): split the stored string
on colons — the two-target unpacking raises unless exactly two fields arise —
then decode and compare.  Every `ValueError` caught by the Python code
returns `false`. -/
def check_password (H : List Char → List Nat → List Nat)
    (stored provided : List Char) : Bool :=
  match splitOnColon stored with
  | [saltHex, hashHex] => checkParts H provided saltHex hashHex
  | _ => false

/-- Well-formedness of a stored credential: exactly one colon separating two
decodable hex fields.  This is precisely the shape on which `check_password`
reaches the digest comparison. -/
def hexColonWellFormed (stored : List Char) : Bool :=
  match splitOnColon stored with
  | [saltHex, hashHex] => (fromHexChars saltHex).isSome && (fromHexChars hashHex).isSome
  | _ => false

/-! ## SQL `LIKE` / `ILIKE` pattern matching

The string filters of `SearchFrame.search_games` (`main.py` 891-909) and the
email search of `SocialFrame.search_users` (`main.py` 1257-1262) all issue
`column ILIKE %s` with the parameter `f"%{input}%"`.  PostgreSQL `LIKE`
semantics: `%` matches any sequence, `_` matches any single character, a
backslash escapes the following character, and a dangling escape is an error
(modelled as no match).  `ILIKE` additionally lowercases both sides; the
ASCII lowercasing used here matches the behaviour on the ASCII data this
schema stores.
-/

/-- Every suffix of a list, longest first, ending with `[]`. -/
def allTails : List Char → List (List Char)
  | [] => [[]]
  | c :: rest => (c :: rest) :: allTails rest

/-- Core `LIKE` matcher on code points.  The percent case matches when the
remaining pattern matches any suffix of the text, which is the defining
property of `%`. -/
def likeMatch : List Char → List Char → Bool
  | [], s => s.isEmpty
  | pc :: pt, s =>
    if pc = '%' then (allTails s).any (likeMatch pt)
    else if pc = '\\' then
      match pt, s with
      | e :: pt2, c :: st => e == c && likeMatch pt2 st
      | _, _ => false
    else if pc = '_' then
      match s with
      | [] => false
      | _ :: st => likeMatch pt st
    else
      match s with
      | [] => false
      | c :: st => pc == c && likeMatch pt st

/-- ASCII lowercasing applied by `ILIKE` to both the pattern and the text. -/
def lowerChars (s : List Char) : List Char :=
  s.map Char.toLower

/-- PostgreSQL `text ILIKE pattern`. -/
def pgILike (pat s : List Char) : Bool :=
  likeMatch (lowerChars pat) (lowerChars s)

/-- The filter predicate `search_games` builds for every string filter:
`field ILIKE %s` with parameter `"%" ++ input ++ "%"`. -/
def ilikeContains (input field : List Char) : Bool :=
  pgILike ('%' :: input ++ ['%']) field

/-- Prefix test on code points. -/
def isPrefixB : List Char → List Char → Bool
  | [], _ => true
  | _ :: _, [] => false
  | a :: as, b :: bs => a == b && isPrefixB as bs

/-- Case-sensitive substring test: the needle is a prefix of some suffix of
the haystack. -/
def containsSubstring (hay needle : List Char) : Bool :=
  (allTails hay).any (fun t => isPrefixB needle t)

/-- Characters with special meaning inside a `LIKE` pattern. -/
def isMetaChar (c : Char) : Bool :=
  c = '%' || c = '_' || c = '\\'

/-! ## Dynamic search query construction (`SearchFrame.search_games`, 859-935)

The query starts from a fixed base ending in `WHERE 1=1`; each of the seven
optional filters appends one predicate string and one parameter when its entry
is non-empty (and, for year and price, when the text parses).  The predicate
strings below are the exact texts appended by the Python code.
-/

/-- Contents of the seven filter entry widgets at the time of a search. -/
structure SearchFilters where
  title : String
  dev : String
  pub : String
  genre : String
  platform : String
  year : String
  price : String
deriving DecidableEq, Repr

/-- Query parameters as appended to `params`. -/
inductive SqlParam where
  | userId
  | str (s : String)
  | int (i : Int)
  | rat (q : PyFloat)
deriving DecidableEq, Repr

/-- Predicate texts appended by each filter block, in source order. -/
def titleClause : String := "g.title ILIKE %s"

/-- Predicate for the developer filter. -/
def devClause : String := "dev.name ILIKE %s"

/-- Predicate for the publisher filter. -/
def pubClause : String := "pub.name ILIKE %s"

/-- Predicate for the genre filter. -/
def genreClause : String := "gen.name ILIKE %s"

/-- Predicate for the platform filter. -/
def platformClause : String := "p.name ILIKE %s"

/-- Predicate for the release-year filter. -/
def yearClause : String := "EXTRACT(YEAR FROM gp.releasedate) = %s"

/-- Predicate for the max-price filter. -/
def priceClause : String := "gp.price <= %s"

/-- The `where_clauses` list built by `search_games`: one entry per present
filter, appended in source order; an unparsable year or price text appends
nothing (the code shows a warning instead). -/
def searchWhereClauses (f : SearchFilters) : List String :=
  (if f.title ≠ "" then [titleClause] else [])
  ++ (if f.dev ≠ "" then [devClause] else [])
  ++ (if f.pub ≠ "" then [pubClause] else [])
  ++ (if f.genre ≠ "" then [genreClause] else [])
  ++ (if f.platform ≠ "" then [platformClause] else [])
  ++ (if f.year ≠ "" then
        if (pyParseInt f.year.toList).isSome then [yearClause] else []
      else [])
  ++ (if f.price ≠ "" then
        if (pyParseFloat f.price.toList).isSome then [priceClause] else []
      else [])

/-- The `params` list built alongside `where_clauses`: two user ids for the
plays / purchases joins, then one parameter per appended predicate. -/
def searchParams (f : SearchFilters) : List SqlParam :=
  [SqlParam.userId, SqlParam.userId]
  ++ (if f.title ≠ "" then [SqlParam.str ("%" ++ f.title ++ "%")] else [])
  ++ (if f.dev ≠ "" then [SqlParam.str ("%" ++ f.dev ++ "%")] else [])
  ++ (if f.pub ≠ "" then [SqlParam.str ("%" ++ f.pub ++ "%")] else [])
  ++ (if f.genre ≠ "" then [SqlParam.str ("%" ++ f.genre ++ "%")] else [])
  ++ (if f.platform ≠ "" then [SqlParam.str ("%" ++ f.platform ++ "%")] else [])
  ++ (if f.year ≠ "" then
        match pyParseInt f.year.toList with
        | some y => [SqlParam.int y]
        | none => []
      else [])
  ++ (if f.price ≠ "" then
        match pyParseFloat f.price.toList with
        | some q => [SqlParam.rat q]
        | none => []
      else [])

/-- Fixed tail of the base query text: the constant clause after the joins. -/
def searchBaseTail : String := "WHERE 1=1"

/-- Fixed `GROUP BY` / `ORDER BY` suffix of the query. -/
def searchGroupOrder : String :=
  "GROUP BY g.gameid, g.title, g.esrb_rating, pu.starrating ORDER BY g.title ASC, minreleasedate ASC;"

/-- Assembly of the final statement as in `search_games` 927-933: the base
(whose last clause is `WHERE 1=1`), then ` AND `-joined predicates only when
at least one filter contributed, then the grouping suffix.  Only the part of
the base text the claims mention is carried around. -/
def buildSearchSql (f : SearchFilters) : String :=
  let cs := searchWhereClauses f
  searchBaseTail
  ++ (if cs.isEmpty then "" else " AND " ++ String.intercalate " AND " cs)
  ++ " " ++ searchGroupOrder

/-! ## Relational state

Rows of the tables the claims touch, with the columns the embedded statements
read or write.  Timestamps are abstract `Nat` values.
-/

/-- Row of `users`. -/
structure UserRow where
  userid : Nat
  firstname : String
  lastname : String
  email : String
  username : String
  password : String
  creationdate : Nat
deriving DecidableEq, Repr

/-- Row of `collection`. -/
structure CollectionRow where
  collectionid : Nat
  userid : Nat
  name : String
deriving DecidableEq, Repr

/-- Row of `plays`. -/
structure PlayRow where
  userid : Nat
  gameid : Nat
  playdatetime : Nat
  duration : Nat
deriving DecidableEq, Repr

/-- Row of `purchases`. -/
structure PurchaseRow where
  userid : Nat
  gameid : Nat
  starrating : Nat
deriving DecidableEq, Repr

/-- Row of `follows`. -/
structure FollowRow where
  followerid : Nat
  followedid : Nat
  followdate : Nat
deriving DecidableEq, Repr

/-- Row of `videogame`. -/
structure VideogameRow where
  gameid : Nat
  title : String
deriving DecidableEq, Repr

/-- Table contents; `collectiongame`, `gamegenre` and `gamedeveloper` are
edge tables of id pairs (`collectionid × gameid`, `gameid × genreid`,
`gameid × companyid`). -/
structure Tables where
  users : List UserRow
  collection : List CollectionRow
  collectiongame : List (Nat × Nat)
  plays : List PlayRow
  purchases : List PurchaseRow
  follows : List FollowRow
  videogame : List VideogameRow
  gamegenre : List (Nat × Nat)
  gamedeveloper : List (Nat × Nat)
deriving DecidableEq, Repr

/-! ## Rating upsert (`SearchFrame.rate_game`, `main.py` 1137-1145)

The statement is `INSERT INTO purchases ... ON CONFLICT (userid, gameid) DO
UPDATE SET starrating = EXCLUDED.starrating`: when a row with the same
`(userid, gameid)` exists under the unique index, its rating is overwritten,
otherwise a fresh row is inserted.
-/

/-- Conflict test of the upsert: same user and game. -/
def purchaseKeyMatches (uid gid : Nat) (p : PurchaseRow) : Bool :=
  p.userid = uid && p.gameid = gid

/-- Update branch of the upsert: `DO UPDATE SET starrating = EXCLUDED.starrating`
on the conflicting row, identity elsewhere. -/
def rateUpd (uid gid rating : Nat) (p : PurchaseRow) : PurchaseRow :=
  if purchaseKeyMatches uid gid p then { p with starrating := rating } else p

/-- Embedding of the `rate_game` upsert on the `purchases` table. -/
def rate_game (uid gid rating : Nat) (ps : List PurchaseRow) : List PurchaseRow :=
  if ps.any (purchaseKeyMatches uid gid) then ps.map (rateUpd uid gid rating)
  else ps ++ [⟨uid, gid, rating⟩]

/-- Uniqueness invariant maintained by the unique index behind the
`ON CONFLICT` clause: no two rows share a `(userid, gameid)` pair. -/
def purchasesUnique (ps : List PurchaseRow) : Prop :=
  ps.Pairwise (fun a b => ¬(a.userid = b.userid ∧ a.gameid = b.gameid))

instance (ps : List PurchaseRow) : Decidable (purchasesUnique ps) := by
  unfold purchasesUnique
  exact inferInstance

/-! ## Social search and follow (`SocialFrame`, `main.py` 1248-1326)

`search_users` runs `SELECT userid, username, email FROM users WHERE email
ILIKE %s AND userid != %s` with the pattern `f"%{email_query}%"` and the
logged-in user; an empty query returns without querying.  `follow_user`
inserts a `follows` row whose followed id comes from a row of these results.
-/

/-- Embedding of `SocialFrame.search_users`. -/
def search_users (t : Tables) (currentUid : Nat) (emailQuery : String) : List UserRow :=
  if emailQuery = "" then []
  else t.users.filter
    (fun u => ilikeContains emailQuery.toList u.email.toList && u.userid ≠ currentUid)

/-- Embedding of the `follow_user` insert: the followed id is the id column
of the selected search-result row. -/
def follow_user (currentUid : Nat) (target : UserRow) (followdate : Nat)
    (fs : List FollowRow) : List FollowRow :=
  fs ++ [⟨currentUid, target.userid, followdate⟩]

/-- Session-level state of the Social tab.  The frames are built once in
`App.__init__` (`main.py` 82-86) and survive a logout: `search_tree` keeps
whatever rows the last search inserted until `search_users` itself clears it
(`main.py` 1249-1250). -/
structure SocialUI where
  currentUid : Nat
  searchRows : List UserRow
  follows : List FollowRow
deriving DecidableEq, Repr

/-- A click on Search: re-runs the query for the logged-in user and replaces
the widget rows — the only operation that ever clears them. -/
def do_search_users (t : Tables) (q : String) (s : SocialUI) : SocialUI :=
  { s with searchRows := search_users t s.currentUid q }

/-- A logout followed by a login as `uid`: `logout` (`main.py` 390-393) only
resets `current_user_id` and the welcome label, and the `refresh_data` run on
re-entry (`main.py` 396-412) reloads the other trees but never touches
`search_tree`, so only the session user changes. -/
def do_relogin (uid : Nat) (s : SocialUI) : SocialUI :=
  { s with currentUid := uid }

/-- A click on Follow Selected User with row `i` of the (possibly stale)
search results selected: `follow_user` (`main.py` 1299-1312) reads the row
from the widget and inserts with the current session user; with nothing
selected it only warns. -/
def do_follow_selected (i d : Nat) (s : SocialUI) : SocialUI :=
  match s.searchRows.get? i with
  | none => s
  | some row => { s with follows := follow_user s.currentUid row d s.follows }

/-! ## Recommendations (`PopularFrame.load_recommendations`, `main.py` 1757-1846)

The scored query (1766-1811) builds, per user: the owned games (distinct game
ids of the collections of the user), the top-3 genres and top-3 developers of
those games by occurrence count, then left-joins every game against its
matching top genres and top developers, keeps non-owned games with at least
one match, scores each joined row 3 + 3 for the two kinds of match, and takes
`DISTINCT ON (g.gameid) ... ORDER BY g.gameid, score DESC, avg_rating DESC
LIMIT 20`.  SQL leaves the order of count ties in the `LIMIT 3` unspecified;
the model breaks such ties by smaller id, which is one of the admissible
executions.
-/

/-- The `user_games` CTE: distinct game ids appearing in any collection owned
by the user. -/
def userGames (t : Tables) (uid : Nat) : List Nat :=
  ((t.collectiongame.filter
      (fun cg => t.collection.any (fun c => c.collectionid = cg.1 && c.userid = uid))).map
    (fun cg => cg.2)).dedup

/-- Occurrence count of one genre over the owned games, the `COUNT(*)` of the
`user_genres` CTE. -/
def genreOccCount (t : Tables) (owned : List Nat) (genre : Nat) : Nat :=
  (t.gamegenre.filter (fun r => r.1 ∈ owned && r.2 = genre)).length

/-- Occurrence count of one developer over the owned games. -/
def devOccCount (t : Tables) (owned : List Nat) (company : Nat) : Nat :=
  (t.gamedeveloper.filter (fun r => r.1 ∈ owned && r.2 = company)).length

/-- The `user_genres` CTE: top-3 genre ids by occurrence count (descending,
ids as deterministic tie-break). -/
def topGenres (t : Tables) (uid : Nat) : List Nat :=
  let owned := userGames t uid
  let gs := ((t.gamegenre.filter (fun r => r.1 ∈ owned)).map (fun r => r.2)).dedup
  (gs.insertionSort (fun a b =>
      genreOccCount t owned b < genreOccCount t owned a ∨
      (genreOccCount t owned a = genreOccCount t owned b ∧ a ≤ b))).take 3

/-- The `user_developers` CTE: top-3 company ids by occurrence count. -/
def topDevelopers (t : Tables) (uid : Nat) : List Nat :=
  let owned := userGames t uid
  let ds := ((t.gamedeveloper.filter (fun r => r.1 ∈ owned)).map (fun r => r.2)).dedup
  (ds.insertionSort (fun a b =>
      devOccCount t owned b < devOccCount t owned a ∨
      (devOccCount t owned a = devOccCount t owned b ∧ a ≤ b))).take 3

/-- The subquery `COALESCE((SELECT AVG(starrating) FROM purchases WHERE
gameid = g.gameid), 0)`: the exact rational sum-over-count, or zero when no
rating row exists. -/
def avgRating (t : Tables) (gid : Nat) : DecValue :=
  let rs := (t.purchases.filter (fun p => p.gameid = gid)).map (fun p => p.starrating)
  if rs.isEmpty then ⟨0, 1⟩ else ⟨(rs.sum : Int), rs.length⟩

/-- Row of the join underlying the scored query: a game together with the
nullable matched genre and matched developer columns. -/
structure JoinedRow where
  gameid : Nat
  title : String
  ggGenre : Option Nat
  gdCompany : Option Nat
deriving DecidableEq, Repr

/-- Null extension of a left join: no matching right row yields a single
`NULL`, otherwise one row per match. -/
def leftOpts (ms : List Nat) : List (Option Nat) :=
  if ms.isEmpty then [none] else ms.map some

/-- The `FROM videogame g LEFT JOIN gamegenre ... LEFT JOIN gamedeveloper ...`
row set, with each join condition restricted to the top-3 lists as in the
query. -/
def recJoinRows (t : Tables) (uid : Nat) : List JoinedRow :=
  let tg := topGenres t uid
  let td := topDevelopers t uid
  t.videogame.flatMap (fun g =>
    let ggs := (t.gamegenre.filter (fun r => r.1 = g.gameid && r.2 ∈ tg)).map (fun r => r.2)
    let gds := (t.gamedeveloper.filter (fun r => r.1 = g.gameid && r.2 ∈ td)).map (fun r => r.2)
    (leftOpts ggs).flatMap (fun ggo => (leftOpts gds).map (fun gdo =>
      { gameid := g.gameid, title := g.title, ggGenre := ggo, gdCompany := gdo })))

/-- The `score` column: `CASE WHEN gg.genreid IS NOT NULL THEN 3 ELSE 0 END +
CASE WHEN gd.companyid IS NOT NULL THEN 3 ELSE 0 END`. -/
def rowScore (r : JoinedRow) : Nat :=
  (if r.ggGenre.isSome then 3 else 0) + (if r.gdCompany.isSome then 3 else 0)

/-- The `reason` column of the scored query. -/
def rowReason (r : JoinedRow) : String :=
  if r.ggGenre.isSome then "Favorite Genre"
  else if r.gdCompany.isSome then "Favorite Developer"
  else "Popular Choice"

/-- The `WHERE` clause: game not owned, and at least one of the two joined
columns non-null. -/
def recFiltered (t : Tables) (uid : Nat) : List JoinedRow :=
  (recJoinRows t uid).filter
    (fun r => (r.gameid ∉ userGames t uid) && (r.ggGenre.isSome || r.gdCompany.isSome))

/-- Membership of a game in the genre side of the join: some genre of the
game is among the top-3 genres of the user. -/
def matchesTopGenre (t : Tables) (uid gid : Nat) : Prop :=
  ∃ r ∈ t.gamegenre, r.1 = gid ∧ r.2 ∈ topGenres t uid

instance (t : Tables) (uid gid : Nat) : Decidable (matchesTopGenre t uid gid) := by
  unfold matchesTopGenre
  exact inferInstance

/-- Membership of a game in the developer side of the join. -/
def matchesTopDev (t : Tables) (uid gid : Nat) : Prop :=
  ∃ r ∈ t.gamedeveloper, r.1 = gid ∧ r.2 ∈ topDevelopers t uid

instance (t : Tables) (uid gid : Nat) : Decidable (matchesTopDev t uid gid) := by
  unfold matchesTopDev
  exact inferInstance

/-- Sort order `ORDER BY g.gameid, score DESC, avg_rating DESC` of the scored
query (`avg_rating` depends only on the game id). -/
def recOrder (t : Tables) (a b : JoinedRow) : Prop :=
  a.gameid < b.gameid ∨
  (a.gameid = b.gameid ∧
    (rowScore b < rowScore a ∨
     (rowScore a = rowScore b ∧ decValueLe (avgRating t b.gameid) (avgRating t a.gameid))))

instance (t : Tables) : DecidableRel (recOrder t) := by
  unfold recOrder
  intro a b
  exact inferInstance

/-- The `DISTINCT ON (g.gameid)` pass over the ordered rows: the first row of
each game id is kept, in order. -/
def distinctOnGame (seen : List Nat) : List JoinedRow → List JoinedRow
  | [] => []
  | r :: rest =>
    if r.gameid ∈ seen then distinctOnGame seen rest
    else r :: distinctOnGame (r.gameid :: seen) rest

/-- Output row of either recommendation query, as fetched by the client. -/
structure RecRow where
  gameid : Nat
  title : String
  reason : String
  score : Nat
  avgRating : DecValue
deriving DecidableEq, Repr

/-- The scored recommendation query (`sql_preferences`, 1766-1811): order the
joined rows, keep the first row per game id, project, limit 20. -/
def recsScoredQuery (t : Tables) (uid : Nat) : List RecRow :=
  ((distinctOnGame [] ((recFiltered t uid).insertionSort (recOrder t))).map
    (fun r => { gameid := r.gameid, title := r.title, reason := rowReason r,
                score := rowScore r, avgRating := avgRating t r.gameid })).take 20

/-- Sort order `ORDER BY avg_rating DESC` of the fallback query. -/
def fallbackOrder (a b : RecRow) : Prop :=
  decValueLe b.avgRating a.avgRating

instance : DecidableRel fallbackOrder := by
  unfold fallbackOrder
  intro a b
  exact inferInstance

/-- The fallback query (`sql_fallback`, 1818-1833): non-owned games whose
rating rows exist and average at least 4 (`HAVING AVG(...) >= 4` discards the
`NULL` average of unrated games), ordered by average rating descending,
limit 20. -/
def recsFallbackQuery (t : Tables) (uid : Nat) : List RecRow :=
  (((t.videogame.filter (fun g =>
      (g.gameid ∉ userGames t uid) &&
      t.purchases.any (fun p => p.gameid = g.gameid) &&
      decValueLe ⟨4, 1⟩ (avgRating t g.gameid))).map (fun g =>
        { gameid := g.gameid, title := g.title, reason := "Highly Rated",
          score := 3, avgRating := avgRating t g.gameid } )).insertionSort
    fallbackOrder).take 20

/-- Whole of `load_recommendations`: the scored query, then the fallback when
it returned no rows. -/
def load_recommendations (t : Tables) (uid : Nat) : List RecRow :=
  let rs := recsScoredQuery t uid
  if rs.isEmpty then recsFallbackQuery t uid else rs

/-! ## Client-side re-sort (`SearchFrame.sort_column`, `main.py` 959-992)

The search results live in a Treeview whose cells store text: tkinter passes
every value through `str(...)` (its `_stringify`), so the SQL `NULL` a row
without a rating carries arrives in the hidden `My RatingNum` cell as the
text `None`.  `sort_column` rebuilds a `(key, item)` list from the cells —
the whole build sits in one `try` whose handler prints and returns, leaving
the view untouched — then sorts it with the Python tuple order and moves the
rows, issuing no database statement.
-/

/-- Text cells of one result row, in the order of the `all_cols` tuple of the
Treeview (`main.py` 787-788). -/
structure TreeRow where
  gameId : String
  title : String
  year : String
  price : String
  platforms : String
  developers : String
  publisher : String
  playtimeNum : String
  playtime : String
  ageRating : String
  ratingNum : String
  rating : String
  genres : String
deriving DecidableEq, Repr

/-- Stringification tkinter applies when a fetched value is stored in a cell:
Python `str(...)`, so `None` (SQL `NULL`) becomes the text `None`. -/
def myRatingNumCell (starrating : Option Nat) : String :=
  match starrating with
  | none => "None"
  | some n => toString n

/-- Cell lookup by column name, `self.tree.set(item, col)`. -/
def cellOf (col : String) (r : TreeRow) : String :=
  if col = "GameID" then r.gameId
  else if col = "Title" then r.title
  else if col = "Year" then r.year
  else if col = "Price" then r.price
  else if col = "Platforms" then r.platforms
  else if col = "Developers" then r.developers
  else if col = "Publisher" then r.publisher
  else if col = "My PlaytimeNum" then r.playtimeNum
  else if col = "My Playtime" then r.playtime
  else if col = "Age Rating" then r.ageRating
  else if col = "My RatingNum" then r.ratingNum
  else if col = "My Rating" then r.rating
  else r.genres

/-- Sort keys: floats for the numeric columns, strings otherwise. -/
inductive SortKey where
  | num (v : PyFloat)
  | str (s : String)
deriving DecidableEq, Repr

/-- Python ordering between two keys of the same kind (keys of one column are
homogeneous; the cross-kind cases are unreachable and fixed arbitrarily). -/
def sortKeyLtB : SortKey → SortKey → Bool
  | .num a, .num b => pyFloatLt a b
  | .str a, .str b => decide (a < b)
  | .num _, .str _ => true
  | .str _, .num _ => false

/-- Python equality between two keys: value equality for floats. -/
def sortKeyEqB : SortKey → SortKey → Bool
  | .num a, .num b => pyFloatEqB a b
  | .str a, .str b => a == b
  | _, _ => false

/-- Python tuple order on `(value, item)`: compare values, then the creation
order of the tree items. -/
def pairLeB (a b : SortKey × Nat) : Bool :=
  sortKeyLtB a.1 b.1 || (sortKeyEqB a.1 b.1 && a.2 ≤ b.2)

/-- Python str.replace of the dollar sign with nothing, used on price cells. -/
def stripDollars (s : String) : String :=
  String.mk (s.toList.filter (fun c => c ≠ '$'))

/-- Key computed for one row, per the column dispatch of `sort_column`;
`none` is the `ValueError` a failed `float(...)` raises. -/
def cellKey (col : String) (r : TreeRow) : Option SortKey :=
  if col = "Price" then
    if cellOf col r = "N/A" then some (.num (.finite ⟨-1, 1⟩))
    else (pyParseFloat (stripDollars (cellOf col r)).toList).map SortKey.num
  else if col = "My Playtime" then
    (pyParseFloat (cellOf "My PlaytimeNum" r).toList).map SortKey.num
  else if col = "My Rating" then
    if cellOf "My RatingNum" r = "" then some (.num (.finite ⟨-1, 1⟩))
    else (pyParseFloat (cellOf "My RatingNum" r).toList).map SortKey.num
  else if col = "Year" then
    if cellOf col r = "N/A" then some (.num (.finite ⟨0, 1⟩))
    else (pyParseFloat (cellOf col r).toList).map SortKey.num
  else if col = "Genres" then
    some (.str (if cellOf col r = "" then "" else (cellOf col r).toLower))
  else
    some (.str ((cellOf col r).toLower))

/-- Key list build over the indexed rows; the first failure aborts the whole
`try` block. -/
def buildKeys (col : String) : List (Nat × TreeRow) → Option (List ((SortKey × Nat) × TreeRow))
  | [] => some []
  | (i, r) :: rest =>
    match cellKey col r, buildKeys col rest with
    | some k, some ks => some (((k, i), r) :: ks)
    | _, _ => none

/-- Sort relation on keyed rows; `data.sort(reverse=reverse)` sorts the
tuples ascending, or descending when the flag is set. -/
def keyedOrder (rev : Bool) (a b : (SortKey × Nat) × TreeRow) : Prop :=
  (if rev then pairLeB b.1 a.1 else pairLeB a.1 b.1) = true

instance (rev : Bool) : DecidableRel (keyedOrder rev) := by
  unfold keyedOrder
  intro a b
  exact inferInstance

/-- Embedding of `sort_column`: build the keys (on failure the exception
handler returns and the row order is unchanged), sort, and reorder the rows
accordingly. -/
def sort_column (col : String) (rev : Bool) (rows : List TreeRow) : List TreeRow :=
  match buildKeys col rows.enum with
  | none => rows
  | some data => (data.insertionSort (keyedOrder rev)).map (fun p => p.2)

/-- Key the claim text assigns to the My Rating column: the numeric rating
with a missing rating treated as -1.  Stated from the claim wording, for
comparison against `sort_column`. -/
def claimedMyRatingKey (starrating : Option Nat) : Int :=
  match starrating with
  | none => -1
  | some n => (n : Int)

/-! ## Transaction discipline (claim C5)

Every handler in `main.py` wraps its statements in `try: ... commit` with
`except: rollback` plus an error dialog.  A failing statement has no effect
of its own; `rollback` then restores all table contents to the transaction
start.  PostgreSQL sequences are the documented exception: per the official
documentation of the sequence functions, changes made by `setval` (and
`nextval`) are never undone by a rollback.  The runner below makes that split
explicit: `Step.write` effects are transactional, the two `setval` steps are
not.
-/

/-- Database state: table contents plus the two sequences the code resets
with `setval` (`users_userid_seq`, `collection_collectionid_seq`). -/
structure DBState where
  tables : Tables
  usersSeq : Nat
  collectionSeq : Nat
deriving DecidableEq, Repr

/-- One SQL statement issued inside a handler. -/
inductive Step where
  | read
  | write (f : Tables → Tables)
  | setvalUsers (f : Tables → Nat)
  | setvalCollection (f : Tables → Nat)

/-- Effect of one successful statement. -/
def applyStep (st : DBState) : Step → DBState
  | .read => st
  | .write f => { st with tables := f st.tables }
  | .setvalUsers f => { st with usersSeq := f st.tables }
  | .setvalCollection f => { st with collectionSeq := f st.tables }

/-- Run of a handler whose statement at index `k` raises: the earlier
statements take effect, the failing one does not, the handler rolls back —
which restores the tables but, per PostgreSQL, not the sequences — and an
error dialog is surfaced (`true`).  An index past the end means no failure:
everything applies and is committed. -/
def runTxnFailingAt (steps : List Step) (k : Nat) (st : DBState) : DBState × Bool :=
  if k < steps.length then
    ({ (steps.take k).foldl applyStep st with tables := st.tables }, true)
  else
    (steps.foldl applyStep st, false)

/-- Rollback safety of a statement list: whichever statement fails, the table
contents afterwards are those from before the handler, and an error dialog
was shown. -/
def rollbackSafe (steps : List Step) : Prop :=
  ∀ k st, k < steps.length →
    (runTxnFailingAt steps k st).1.tables = st.tables ∧ (runTxnFailingAt steps k st).2 = true

/-- The `SELECT MAX(userid) FROM users` of the sequence reset (0 for an empty
table, which in deployment never occurs). -/
def maxUserId (t : Tables) : Nat :=
  (t.users.map (fun u => u.userid)).foldr max 0

/-- The `SELECT MAX(collectionid) FROM collection` of the other reset. -/
def maxCollectionId (t : Tables) : Nat :=
  (t.collection.map (fun c => c.collectionid)).foldr max 0

/-- Statements of `RegisterFrame.register` (`main.py` 299-328): duplicate
pre-check `SELECT`, `setval` on the user sequence, then the `INSERT` whose
generated id is the freshly reset sequence successor. -/
def registerSteps (fname lname email uname pwhash : String) (now : Nat) : List Step :=
  [Step.read,
   Step.setvalUsers maxUserId,
   Step.write (fun t => { t with users := t.users ++
     [{ userid := maxUserId t + 1, firstname := fname, lastname := lname,
        email := email, username := uname, password := pwhash, creationdate := now }] })]

/-- Statements of `create_collection` (`main.py` 511-520). -/
def createCollectionSteps (uid : Nat) (name : String) : List Step :=
  [Step.setvalCollection maxCollectionId,
   Step.write (fun t => { t with collection := t.collection ++
     [{ collectionid := maxCollectionId t + 1, userid := uid, name := name }] })]

/-- Statement of `rename_collection` (`main.py` 560-563). -/
def renameCollectionSteps (cid uid : Nat) (newName : String) : List Step :=
  [Step.write (fun t => { t with collection := (t.collection.map
     (fun c => if c.collectionid = cid ∧ c.userid = uid then { c with name := newName } else c)) })]

/-- Statements of `delete_collection` (`main.py` 584-591): the edge rows of
the collection, then the collection row itself. -/
def deleteCollectionSteps (cid uid : Nat) : List Step :=
  [Step.write (fun t => { t with collectiongame :=
     (t.collectiongame.filter (fun cg => ¬(cg.1 = cid))) }),
   Step.write (fun t => { t with collection :=
     (t.collection.filter (fun c => ¬(c.collectionid = cid ∧ c.userid = uid))) })]

/-- Statement of `rate_game` (`main.py` 1137-1145). -/
def rateGameSteps (uid gid rating : Nat) : List Step :=
  [Step.write (fun t => { t with purchases := rate_game uid gid rating t.purchases })]

/-- Statement of `play_game` (`main.py` 1168-1175). -/
def playGameSteps (uid gid now dur : Nat) : List Step :=
  [Step.write (fun t => { t with plays := t.plays ++
     [{ userid := uid, gameid := gid, playdatetime := now, duration := dur }] })]

/-- Statements of `play_random` (`main.py` 607-633): the game `SELECT`, then
the play `INSERT` for the chosen game. -/
def playRandomSteps (uid gid now dur : Nat) : List Step :=
  [Step.read,
   Step.write (fun t => { t with plays := t.plays ++
     [{ userid := uid, gameid := gid, playdatetime := now, duration := dur }] })]

/-- Statement of `follow_user` (`main.py` 1307-1313). -/
def followUserSteps (uid : Nat) (target : UserRow) (now : Nat) : List Step :=
  [Step.write (fun t => { t with follows := follow_user uid target now t.follows })]

/-- Statement of `unfollow_user` (`main.py` 1340-1346). -/
def unfollowUserSteps (uid targetId : Nat) : List Step :=
  [Step.write (fun t => { t with follows :=
     (t.follows.filter (fun e => ¬(e.followerid = uid ∧ e.followedid = targetId))) })]

/-! ## Constraint-violation messages (claim C9)

The handlers that compare `e.diag.sqlstate` against the unique-violation
code 23505, and the two messages of the registration duplicate pre-check.  In the add-to-collection
message the Python f-string wraps the title in single-quote characters, which
are elided here.
-/

/-- Database error as seen by a handler. -/
structure PgError where
  sqlstate : String
  msg : String
deriving DecidableEq, Repr

/-- Message of the `create_collection` handler (`main.py` 528-533). -/
def create_collection_error_message (e : PgError) : String :=
  if e.sqlstate = "23505" then "A collection with this name already exists."
  else "Failed to create collection: " ++ e.msg

/-- Message of the `rename_collection` handler (`main.py` 566-571). -/
def rename_collection_error_message (e : PgError) : String :=
  if e.sqlstate = "23505" then "A collection with this name already exists."
  else "Failed to rename collection: " ++ e.msg

/-- Message of the `add_to_collection` handler (`main.py` 1084-1089). -/
def add_to_collection_error_message (title : String) (e : PgError) : String :=
  if e.sqlstate = "23505" then title ++ " is already in that collection."
  else "Failed to add game: " ++ e.msg

/-- Message of the `follow_user` handler (`main.py` 1321-1326). -/
def follow_user_error_message (username : String) (e : PgError) : String :=
  if e.sqlstate = "23505" then "You are already following " ++ username ++ "."
  else "Failed to follow user: " ++ e.msg

/-- Message of the `register` handler (`main.py` 335-337): no sqlstate
pattern-match at all, every database error is reported raw. -/
def register_error_message (e : PgError) : String :=
  "An unexpected error occurred: " ++ e.msg

/-- Messages of the registration duplicate pre-check (`main.py` 300-313),
driven by the row the `SELECT` returned, not by any error code. -/
def register_duplicate_message (existing : Option (String × String))
    (username email : String) : Option String :=
  match existing with
  | none => none
  | some (eu, ee) =>
    if eu = username then some "Username already exists."
    else if ee = email then some "Email already exists."
    else none

/-! ## Concrete fixtures

Small database states and rows used by the witnesses and the concrete
evaluations below.
-/

/-- User row of the C5 fixture. -/
def regUser0 : UserRow :=
  { userid := 10, firstname := "a", lastname := "a", email := "a@x",
    username := "alice", password := "h", creationdate := 0 }

/-- Table contents of the C5 fixture: one user with id 10. -/
def regTables0 : Tables :=
  { users := [regUser0], collection := [], collectiongame := [], plays := [],
    purchases := [], follows := [], videogame := [], gamegenre := [],
    gamedeveloper := [] }

/-- Database state of the C5 fixture: the user sequence lags at 3. -/
def regState0 : DBState :=
  { tables := regTables0, usersSeq := 3, collectionSeq := 1 }

/-- Fixture for the C10 witness: two users, ids 5 and 7. -/
def socTables0 : Tables :=
  { users := [⟨5, "f", "l", "alice@mail", "alice", "h", 0⟩,
              ⟨7, "g", "m", "bob@mail", "bob", "h", 0⟩],
    collection := [], collectiongame := [], plays := [], purchases := [],
    follows := [], videogame := [], gamegenre := [], gamedeveloper := [] }

/-- Digest function of the C7 witness. -/
def H0 : List Char → List Nat → List Nat :=
  fun p s => [(p.length + s.length) % 256]

/-- Fixture for the C2 witness: user 7 owns game 2 in one collection, genre
10 is the top genre, game 1 shares it. -/
def recT2 : Tables :=
  { users := [], collection := [⟨1, 7, "c"⟩], collectiongame := [(1, 2)],
    plays := [], purchases := [], follows := [],
    videogame := [⟨1, "A"⟩, ⟨2, "B"⟩],
    gamegenre := [(2, 10), (1, 10)], gamedeveloper := [] }

/-- Fixture for C3: user 7 owns game 3; games 1 and 2 both match the one top
genre with equal score 3, game 1 averages 2 stars, game 2 averages 5. -/
def recT3 : Tables :=
  { users := [], collection := [⟨1, 7, "c"⟩], collectiongame := [(1, 3)],
    plays := [], purchases := [⟨8, 1, 2⟩, ⟨9, 2, 5⟩], follows := [],
    videogame := [⟨1, "A"⟩, ⟨2, "B"⟩, ⟨3, "C"⟩],
    gamegenre := [(3, 10), (1, 10), (2, 10)], gamedeveloper := [] }

/-- Fixture for the C3 fallback path: user 9 owns nothing, so the scored
query is empty; games average 4, 5 and 3 stars. -/
def recT4 : Tables :=
  { users := [], collection := [], collectiongame := [], plays := [],
    purchases := [⟨5, 1, 4⟩, ⟨5, 2, 5⟩, ⟨5, 3, 3⟩], follows := [],
    videogame := [⟨1, "A"⟩, ⟨2, "B"⟩, ⟨3, "C"⟩],
    gamegenre := [], gamedeveloper := [] }

/-- Row of the C8 fixture rated 5 stars. -/
def rowRated5 : TreeRow :=
  { gameId := "1", title := "Alpha", year := "2001", price := "$9.99",
    platforms := "PC", developers := "DevA", publisher := "PubA",
    playtimeNum := "30", playtime := "00:30", ageRating := "E",
    ratingNum := myRatingNumCell (some 5), rating := "5", genres := "Action" }

/-- Row of the C8 fixture rated 2 stars. -/
def rowRated2 : TreeRow :=
  { gameId := "2", title := "Beta", year := "2002", price := "$19.99",
    platforms := "PC", developers := "DevB", publisher := "PubB",
    playtimeNum := "60", playtime := "01:00", ageRating := "E",
    ratingNum := myRatingNumCell (some 2), rating := "2", genres := "RPG" }

/-- Row of the C8 fixture with no rating: tkinter stores the text `None`. -/
def rowUnrated : TreeRow :=
  { gameId := "3", title := "Gamma", year := "2003", price := "$29.99",
    platforms := "PC", developers := "DevC", publisher := "PubC",
    playtimeNum := "0", playtime := "00:00", ageRating := "E",
    ratingNum := myRatingNumCell none, rating := "N/A", genres := "Sim" }

/-! ## Theorems -/

set_option maxHeartbeats 1000000 in
/-- Occurrence counts of the seven predicate texts in the built clause list,
and the total length: one case split over the seven filter conditions. -/
theorem searchWhereClauses_counts (f : SearchFilters) :
    ((searchWhereClauses f).count titleClause = if f.title ≠ "" then 1 else 0)
  ∧ ((searchWhereClauses f).count devClause = if f.dev ≠ "" then 1 else 0)
  ∧ ((searchWhereClauses f).count pubClause = if f.pub ≠ "" then 1 else 0)
  ∧ ((searchWhereClauses f).count genreClause = if f.genre ≠ "" then 1 else 0)
  ∧ ((searchWhereClauses f).count platformClause = if f.platform ≠ "" then 1 else 0)
  ∧ ((searchWhereClauses f).count yearClause =
      if f.year ≠ "" then (if (pyParseInt f.year.toList).isSome then 1 else 0) else 0)
  ∧ ((searchWhereClauses f).count priceClause =
      if f.price ≠ "" then (if (pyParseFloat f.price.toList).isSome then 1 else 0) else 0)
  ∧ ((searchWhereClauses f).length =
      (if f.title ≠ "" then 1 else 0) + (if f.dev ≠ "" then 1 else 0)
      + (if f.pub ≠ "" then 1 else 0) + (if f.genre ≠ "" then 1 else 0)
      + (if f.platform ≠ "" then 1 else 0)
      + (if f.year ≠ "" then (if (pyParseInt f.year.toList).isSome then 1 else 0) else 0)
      + (if f.price ≠ "" then (if (pyParseFloat f.price.toList).isSome then 1 else 0) else 0)) := by
  unfold searchWhereClauses
  split_ifs <;> decide

/-- Claim C1: for every combination of the seven optional search filters, the
query built by `search_games` contains exactly one predicate per present
filter (counted by its exact text) and none for an absent one; a year or
price text that does not parse contributes no predicate; and beyond the
joins only the constant `WHERE 1=1` base clause appears, the predicates being
conjoined onto it. -/
theorem C1_dynamic_predicates (f : SearchFilters) :
    ((searchWhereClauses f).count titleClause = if f.title ≠ "" then 1 else 0)
  ∧ ((searchWhereClauses f).count devClause = if f.dev ≠ "" then 1 else 0)
  ∧ ((searchWhereClauses f).count pubClause = if f.pub ≠ "" then 1 else 0)
  ∧ ((searchWhereClauses f).count genreClause = if f.genre ≠ "" then 1 else 0)
  ∧ ((searchWhereClauses f).count platformClause = if f.platform ≠ "" then 1 else 0)
  ∧ ((searchWhereClauses f).count yearClause =
      if f.year ≠ "" then (if (pyParseInt f.year.toList).isSome then 1 else 0) else 0)
  ∧ ((searchWhereClauses f).count priceClause =
      if f.price ≠ "" then (if (pyParseFloat f.price.toList).isSome then 1 else 0) else 0)
  ∧ ((searchWhereClauses f).length =
      (if f.title ≠ "" then 1 else 0) + (if f.dev ≠ "" then 1 else 0)
      + (if f.pub ≠ "" then 1 else 0) + (if f.genre ≠ "" then 1 else 0)
      + (if f.platform ≠ "" then 1 else 0)
      + (if f.year ≠ "" then (if (pyParseInt f.year.toList).isSome then 1 else 0) else 0)
      + (if f.price ≠ "" then (if (pyParseFloat f.price.toList).isSome then 1 else 0) else 0))
  ∧ buildSearchSql f = searchBaseTail
      ++ (if (searchWhereClauses f).isEmpty then ""
          else " AND " ++ String.intercalate " AND " (searchWhereClauses f))
      ++ " " ++ searchGroupOrder := by
  obtain ⟨h1, h2, h3, h4, h5, h6, h7, h8⟩ := searchWhereClauses_counts f
  exact ⟨h1, h2, h3, h4, h5, h6, h7, h8, rfl⟩

/-- Claim C9 counterexample: a unique-violation (sqlstate 23505) raised by the
registration `INSERT` is reported through the raw unexpected-error message,
not through the friendly duplicate messages, because `register` has no
sqlstate pattern-match. -/
theorem C9_counterexample :
    register_error_message { sqlstate := "23505", msg := "duplicate key value" }
      = "An unexpected error occurred: duplicate key value"
  ∧ register_error_message { sqlstate := "23505", msg := "duplicate key value" }
      ≠ "Username already exists."
  ∧ register_error_message { sqlstate := "23505", msg := "duplicate key value" }
      ≠ "Email already exists." := by
  refine ⟨rfl, ?_, ?_⟩ <;> decide

/-- Claim C9 as amended: the collection, game-in-collection and follow
handlers pattern-match sqlstate 23505 into friendly duplicate messages; the
registration duplicate messages come from the explicit pre-check `SELECT`,
while a database error during registration — whatever its sqlstate — is
reported raw. -/
theorem C9_amended (e : PgError) (he : e.sqlstate = "23505")
    (title uname eu username email : String) (hne : eu ≠ username) :
    create_collection_error_message e = "A collection with this name already exists."
  ∧ rename_collection_error_message e = "A collection with this name already exists."
  ∧ add_to_collection_error_message title e = title ++ " is already in that collection."
  ∧ follow_user_error_message uname e = "You are already following " ++ uname ++ "."
  ∧ register_error_message e = "An unexpected error occurred: " ++ e.msg
  ∧ register_duplicate_message (some (username, email)) username email
      = some "Username already exists."
  ∧ register_duplicate_message (some (eu, email)) username email
      = some "Email already exists." := by
  refine ⟨?_, ?_, ?_, ?_, rfl, ?_, ?_⟩ <;>
    simp [create_collection_error_message, rename_collection_error_message,
      add_to_collection_error_message, follow_user_error_message,
      register_duplicate_message, he, hne]

/-- Witness for C9_amended at a concrete error and concrete names. -/
theorem C9_amended_witness :
    ({ sqlstate := "23505", msg := "m" } : PgError).sqlstate = "23505"
  ∧ create_collection_error_message { sqlstate := "23505", msg := "m" }
      = "A collection with this name already exists." :=
  ⟨rfl, (C9_amended { sqlstate := "23505", msg := "m" } rfl "t" "u" "other" "user" "e@x"
      (by decide)).1⟩

/-- Rollback behaviour of an arbitrary statement list under the runner: the
failure of any statement restores the tables and surfaces an error. -/
theorem rollbackSafe_steps (steps : List Step) : rollbackSafe steps := by
  intro k st hk
  constructor
  · simp [runTxnFailingAt, hk]
  · simp [runTxnFailingAt, hk]

/-- Claim C5 counterexample: when the registration `INSERT` (statement
index 2) fails, the rollback restores every table, yet the database state is
not the initial one — the `setval` of statement 1 moved the user sequence
from 3 to 10 and PostgreSQL never rolls sequence updates back. -/
theorem C5_counterexample :
    (runTxnFailingAt (registerSteps "b" "b" "b@x" "bob" "h2" 1) 2 regState0).2 = true
  ∧ (runTxnFailingAt (registerSteps "b" "b" "b@x" "bob" "h2" 1) 2 regState0).1.tables
      = regState0.tables
  ∧ (runTxnFailingAt (registerSteps "b" "b" "b@x" "bob" "h2" 1) 2 regState0).1.usersSeq = 10
  ∧ regState0.usersSeq = 3
  ∧ (runTxnFailingAt (registerSteps "b" "b" "b@x" "bob" "h2" 1) 2 regState0).1 ≠ regState0 := by
  refine ⟨rfl, rfl, rfl, rfl, ?_⟩
  decide

/-- Claim C5 as amended: for every write operation of the application and
every failing statement, the handler rolls back and surfaces an error, and
all table contents are left unchanged (the sequence positions touched by
`setval` are exactly what the rollback does not restore, per
`C5_counterexample`). -/
theorem C5_amended (fname lname email uname pwhash name newName : String)
    (now uid cid gid rating dur targetId : Nat) (target : UserRow) :
    rollbackSafe (registerSteps fname lname email uname pwhash now)
  ∧ rollbackSafe (createCollectionSteps uid name)
  ∧ rollbackSafe (renameCollectionSteps cid uid newName)
  ∧ rollbackSafe (deleteCollectionSteps cid uid)
  ∧ rollbackSafe (rateGameSteps uid gid rating)
  ∧ rollbackSafe (playGameSteps uid gid now dur)
  ∧ rollbackSafe (playRandomSteps uid gid now dur)
  ∧ rollbackSafe (followUserSteps uid target now)
  ∧ rollbackSafe (unfollowUserSteps uid targetId) :=
  ⟨rollbackSafe_steps _, rollbackSafe_steps _, rollbackSafe_steps _,
   rollbackSafe_steps _, rollbackSafe_steps _, rollbackSafe_steps _,
   rollbackSafe_steps _, rollbackSafe_steps _, rollbackSafe_steps _⟩

/-- Witness for C5_amended: the failing second `DELETE` of
`delete_collection` leaves the tables of the fixture unchanged. -/
theorem C5_amended_witness :
    (runTxnFailingAt (deleteCollectionSteps 1 7) 1 regState0).1.tables = regState0.tables
  ∧ (runTxnFailingAt (deleteCollectionSteps 1 7) 1 regState0).2 = true :=
  (C5_amended "" "" "" "" "" "" "" 0 7 1 0 0 0 0 regUser0).2.2.2.1 1 regState0 (by decide)

/-- Unfolding of the conflict test into its two field equations. -/
theorem purchaseKeyMatches_iff {uid gid : Nat} {p : PurchaseRow} :
    purchaseKeyMatches uid gid p = true ↔ p.userid = uid ∧ p.gameid = gid := by
  simp [purchaseKeyMatches]

/-- The update branch leaves the conflict key unchanged. -/
theorem rateUpd_key (uid gid r : Nat) (p : PurchaseRow) :
    purchaseKeyMatches uid gid (rateUpd uid gid r p) = purchaseKeyMatches uid gid p := by
  unfold rateUpd
  split <;> rfl

/-- The update branch leaves the user id unchanged. -/
theorem rateUpd_userid (uid gid r : Nat) (p : PurchaseRow) :
    (rateUpd uid gid r p).userid = p.userid := by
  unfold rateUpd
  split <;> rfl

/-- The update branch leaves the game id unchanged. -/
theorem rateUpd_gameid (uid gid r : Nat) (p : PurchaseRow) :
    (rateUpd uid gid r p).gameid = p.gameid := by
  unfold rateUpd
  split <;> rfl

/-- Under the uniqueness invariant at most one row carries a given key. -/
theorem filter_key_len_le (uid gid : Nat) (ps : List PurchaseRow)
    (h : purchasesUnique ps) :
    (ps.filter (purchaseKeyMatches uid gid)).length ≤ 1 := by
  induction ps with
  | nil => simp
  | cons p rest ih =>
    rw [purchasesUnique, List.pairwise_cons] at h
    by_cases hk : purchaseKeyMatches uid gid p
    · rw [List.filter_cons_of_pos hk]
      have hnil : rest.filter (purchaseKeyMatches uid gid) = [] := by
        rw [List.filter_eq_nil_iff]
        intro b hb hkb
        obtain ⟨hpu, hpg⟩ := purchaseKeyMatches_iff.mp hk
        obtain ⟨hbu, hbg⟩ := purchaseKeyMatches_iff.mp hkb
        exact h.1 b hb ⟨hpu.trans hbu.symm, hpg.trans hbg.symm⟩
      simp [hnil]
    · rw [List.filter_cons_of_neg (by simpa using hk)]
      exact ih h.2

/-- Claim C6: after `rate_game` records rating `r` for `(uid, gid)` on a
purchases table satisfying the unique-index invariant, exactly one row
carries that key, its rating is `r` whether or not a row existed before, all
other rows are untouched, and the invariant still holds, so no state of the
application ever holds two rating rows for one pair. -/
theorem C6_rating_upsert (uid gid r : Nat) (ps : List PurchaseRow)
    (h : purchasesUnique ps) :
    ((rate_game uid gid r ps).filter (purchaseKeyMatches uid gid)).length = 1
  ∧ (∀ p ∈ rate_game uid gid r ps, p.userid = uid → p.gameid = gid → p.starrating = r)
  ∧ purchasesUnique (rate_game uid gid r ps)
  ∧ ∀ p ∈ rate_game uid gid r ps, ¬(p.userid = uid ∧ p.gameid = gid) → p ∈ ps := by
  unfold rate_game
  by_cases hex : ps.any (purchaseKeyMatches uid gid)
  · rw [if_pos hex]
    have hmapfilter :
        (ps.map (rateUpd uid gid r)).filter (purchaseKeyMatches uid gid)
          = (ps.filter (purchaseKeyMatches uid gid)).map (rateUpd uid gid r) := by
      rw [List.filter_map]
      congr 1
      apply List.filter_congr
      intro p _
      exact rateUpd_key uid gid r p
    refine ⟨?_, ?_, ?_, ?_⟩
    · rw [hmapfilter, List.length_map]
      have hle := filter_key_len_le uid gid ps h
      obtain ⟨x, hx, hkx⟩ := List.any_eq_true.mp hex
      have hxf : x ∈ ps.filter (purchaseKeyMatches uid gid) :=
        List.mem_filter.mpr ⟨hx, hkx⟩
      have hpos : 0 < (ps.filter (purchaseKeyMatches uid gid)).length :=
        List.length_pos.mpr (List.ne_nil_of_mem hxf)
      omega
    · intro p hp h1 h2
      obtain ⟨q, hq, rfl⟩ := List.mem_map.mp hp
      by_cases hkq : purchaseKeyMatches uid gid q
      · simp [rateUpd, hkq]
      · have : purchaseKeyMatches uid gid (rateUpd uid gid r q) = true := by
          rw [rateUpd_key]
          exact purchaseKeyMatches_iff.mpr ⟨by rw [← rateUpd_userid uid gid r q, h1],
            by rw [← rateUpd_gameid uid gid r q, h2]⟩
        rw [rateUpd_key] at this
        exact absurd this hkq
    · exact List.Pairwise.map _
        (fun a b hab => by
          rw [rateUpd_userid, rateUpd_userid, rateUpd_gameid, rateUpd_gameid]
          exact hab) h
    · intro p hp hnp
      obtain ⟨q, hq, rfl⟩ := List.mem_map.mp hp
      by_cases hkq : purchaseKeyMatches uid gid q
      · exfalso
        apply hnp
        obtain ⟨hu, hg⟩ := purchaseKeyMatches_iff.mp hkq
        exact ⟨by rw [rateUpd_userid, hu], by rw [rateUpd_gameid, hg]⟩
      · rw [rateUpd, if_neg hkq]
        exact hq
  · rw [if_neg hex]
    have hall : ∀ p ∈ ps, ¬ purchaseKeyMatches uid gid p = true := by
      intro p hp hk
      exact hex (List.any_eq_true.mpr ⟨p, hp, hk⟩)
    have hknew : purchaseKeyMatches uid gid ⟨uid, gid, r⟩ = true :=
      purchaseKeyMatches_iff.mpr ⟨rfl, rfl⟩
    refine ⟨?_, ?_, ?_, ?_⟩
    · rw [List.filter_append, List.filter_eq_nil_iff.mpr hall,
        List.filter_cons_of_pos hknew]
      simp
    · intro p hp h1 h2
      rcases List.mem_append.mp hp with hin | hnew
      · exact absurd (purchaseKeyMatches_iff.mpr ⟨h1, h2⟩) (hall p hin)
      · rw [List.mem_singleton.mp hnew]
    · rw [purchasesUnique, List.pairwise_append]
      refine ⟨h, List.pairwise_singleton _ _, ?_⟩
      intro a ha b hb
      rw [List.mem_singleton.mp hb]
      intro ⟨hu, hg⟩
      exact hall a ha (purchaseKeyMatches_iff.mpr ⟨hu, hg⟩)
    · intro p hp hnp
      rcases List.mem_append.mp hp with hin | hnew
      · exact hin
      · rw [List.mem_singleton.mp hnew] at hnp
        exact absurd ⟨rfl, rfl⟩ hnp

/-- Witness for C6 on a concrete table: user 1 re-rates game 2. -/
theorem C6_witness :
    purchasesUnique [⟨1, 2, 3⟩, ⟨1, 5, 4⟩]
  ∧ ((rate_game 1 2 5 [⟨1, 2, 3⟩, ⟨1, 5, 4⟩]).filter (purchaseKeyMatches 1 2)).length = 1 :=
  ⟨by decide, (C6_rating_upsert 1 2 5 [⟨1, 2, 3⟩, ⟨1, 5, 4⟩] (by decide)).1⟩

/-- Claim C10 as amended: every row returned by `search_users` carries a
user id different from the user who ran that search, so a follow performed
by the same logged-in user who ran the search never inserts an edge with
equal endpoints.  (The application-wide form of the claim fails: see
`C10_counterexample` for a stale-row execution across a relogin.) -/
theorem C10_no_self_follow (t : Tables) (uid : Nat) (q : String) (u : UserRow)
    (hu : u ∈ search_users t uid q) :
    u.userid ≠ uid
  ∧ ∀ (d : Nat) (fs : List FollowRow) (e : FollowRow),
      e ∈ follow_user uid u d fs → e ∈ fs ∨ e.followerid ≠ e.followedid := by
  unfold search_users at hu
  by_cases hq : q = ""
  · rw [if_pos hq] at hu
    exact absurd hu (List.not_mem_nil u)
  · rw [if_neg hq] at hu
    have hcond := (List.mem_filter.mp hu).2
    simp only [Bool.and_eq_true, decide_eq_true_eq] at hcond
    refine ⟨hcond.2, ?_⟩
    intro d fs e he
    rcases List.mem_append.mp he with hin | hnew
    · exact Or.inl hin
    · right
      rw [List.mem_singleton.mp hnew]
      intro hh
      exact hcond.2 hh.symm

/-- Witness for C10: user 7 searches `alice` and may follow only user 5. -/
theorem C10_witness :
    (⟨5, "f", "l", "alice@mail", "alice", "h", 0⟩ : UserRow)
        ∈ search_users socTables0 7 "alice"
  ∧ (⟨5, "f", "l", "alice@mail", "alice", "h", 0⟩ : UserRow).userid ≠ 7 :=
  ⟨by decide,
   (C10_no_self_follow socTables0 7 "alice" _ (by decide)).1⟩

/-- Claim C10 counterexample: the search results widget outlives the session
that produced it.  User 7 searches `alice` and the results hold user 5; user
7 logs out and user 5 logs in — neither step touches the widget — and user 5
follows the stale row carrying their own id: the application inserts the
follow edge (5, 5), whose follower and followed ids are equal. -/
theorem C10_counterexample :
    (do_follow_selected 0 0 (do_relogin 5 (do_search_users socTables0 "alice"
        { currentUid := 7, searchRows := [], follows := [] }))).follows
      = [{ followerid := 5, followedid := 5, followdate := 0 }]
  ∧ ({ followerid := 5, followedid := 5, followdate := 0 } : FollowRow).followerid
      = ({ followerid := 5, followedid := 5, followdate := 0 } : FollowRow).followedid := by
  refine ⟨by decide, rfl⟩

/-- Decoding inverts the hex digit encoder on nibble values. -/
theorem hexDigitVal_char (n : Nat) (h : n < 16) :
    hexDigitVal (hexDigitChar n) = some n := by
  revert h
  revert n
  decide

/-- Hex digits are not colons. -/
theorem hexDigitChar_ne_colon (n : Nat) (h : n < 16) : hexDigitChar n ≠ ':' := by
  revert h
  revert n
  decide

/-- Hex digits are not whitespace. -/
theorem hexDigitChar_not_space (n : Nat) (h : n < 16) :
    isPySpace (hexDigitChar n) = false := by
  revert h
  revert n
  decide

/-- The hex expansion of a byte string contains no colon. -/
theorem bytesHex_no_colon (bs : List Nat) (hb : ∀ b ∈ bs, b < 256) :
    ∀ c ∈ bytesHex bs, c ≠ ':' := by
  intro c hc
  unfold bytesHex at hc
  obtain ⟨l, hl, hcl⟩ := List.mem_flatten.mp hc
  obtain ⟨b, hbmem, rfl⟩ := List.mem_map.mp hl
  have hblt : b < 256 := hb b hbmem
  unfold byteToHexChars at hcl
  rcases List.mem_cons.mp hcl with rfl | hcl2
  · exact hexDigitChar_ne_colon _ (by omega)
  · rcases List.mem_cons.mp hcl2 with rfl | hnil
    · exact hexDigitChar_ne_colon _ (by omega)
    · exact absurd hnil (List.not_mem_nil c)

/-- Splitting never produces the empty list of fields. -/
theorem splitOnColon_ne_nil (l : List Char) : splitOnColon l ≠ [] := by
  induction l with
  | nil => simp [splitOnColon]
  | cons c rest ih =>
    cases h : splitOnColon rest with
    | nil => simp [splitOnColon, h]
    | cons g gs =>
      by_cases hc : c = ':' <;> simp [splitOnColon, h, hc]

/-- A colon-free string splits into the single field it is. -/
theorem splitOnColon_no_colon (l : List Char) (h : ∀ c ∈ l, c ≠ ':') :
    splitOnColon l = [l] := by
  induction l with
  | nil => rfl
  | cons c rest ih =>
    have hrest : splitOnColon rest = [rest] :=
      ih (fun x hx => h x (List.mem_cons_of_mem c hx))
    simp [splitOnColon, hrest, h c (List.mem_cons_self c rest)]

/-- The colon after a colon-free first field separates exactly there. -/
theorem splitOnColon_append (a b : List Char) (ha : ∀ c ∈ a, c ≠ ':') :
    splitOnColon (a ++ ':' :: b) = a :: splitOnColon b := by
  induction a with
  | nil =>
    cases h : splitOnColon b with
    | nil => exact absurd h (splitOnColon_ne_nil b)
    | cons g gs => simp [splitOnColon, h]
  | cons c a ih =>
    have hrec := ih (fun x hx => ha x (List.mem_cons_of_mem c hx))
    simp [splitOnColon, hrec, ha c (List.mem_cons_self c a)]

/-- Decoding inverts the hex encoding of a byte string. -/
theorem fromHexChars_bytesHex (bs : List Nat) (hb : ∀ b ∈ bs, b < 256) :
    fromHexChars (bytesHex bs) = some bs := by
  induction bs with
  | nil => rfl
  | cons b rest ih =>
    have hblt : b < 256 := hb b (List.mem_cons_self b rest)
    have h1 : b / 16 < 16 := by omega
    have h2 : b % 16 < 16 := by omega
    have hrest := ih (fun x hx => hb x (List.mem_cons_of_mem b hx))
    have hbytes : bytesHex (b :: rest)
        = hexDigitChar (b / 16) :: hexDigitChar (b % 16) :: bytesHex rest := by
      simp [bytesHex, byteToHexChars]
    rw [hbytes]
    simp [fromHexChars, hexDigitChar_not_space _ h1, hexDigitChar_not_space _ h2,
      hexDigitVal_char _ h1, hexDigitVal_char _ h2, hrest]
    omega

/-- Claim C7: verification succeeds on the stored string produced by hashing
(the salt embedded in `salt:hash` is reused), for every digest function and
salt; and on every stored string that is not of the well-formed hex-colon-hex
shape, `check_password` returns `false` instead of raising. -/
theorem C7_password_roundtrip :
    (∀ (H : List Char → List Nat → List Nat) (salt : List Nat) (p : List Char),
      (∀ b ∈ salt, b < 256) → (∀ b ∈ H p salt, b < 256) →
      check_password H (hash_password H salt p) p = true)
  ∧ (∀ (H : List Char → List Nat → List Nat) (stored provided : List Char),
      hexColonWellFormed stored = false → check_password H stored provided = false) := by
  constructor
  · intro H salt p hs hh
    unfold hash_password check_password
    rw [splitOnColon_append _ _ (bytesHex_no_colon salt hs),
      splitOnColon_no_colon _ (bytesHex_no_colon (H p salt) hh)]
    show checkParts H p (bytesHex salt) (bytesHex (H p salt)) = true
    unfold checkParts
    rw [fromHexChars_bytesHex salt hs, fromHexChars_bytesHex (H p salt) hh]
    show (H p salt == H p salt) = true
    exact beq_self_eq_true _
  · intro H stored provided hwf
    unfold hexColonWellFormed at hwf
    unfold check_password
    cases h : splitOnColon stored with
    | nil => rfl
    | cons a rest =>
      cases rest with
      | nil => rfl
      | cons b rest2 =>
        cases rest2 with
        | nil =>
          rw [h] at hwf
          replace hwf : ((fromHexChars a).isSome && (fromHexChars b).isSome) = false := hwf
          show checkParts H provided a b = false
          unfold checkParts
          cases ha : fromHexChars a with
          | none => rfl
          | some sa =>
            cases hbb : fromHexChars b with
            | none => rfl
            | some sb =>
              rw [ha, hbb] at hwf
              simp at hwf
        | cons c rest3 => rfl

/-- Witness for C7 at a concrete salt, password and malformed credential. -/
theorem C7_witness :
    ((∀ b ∈ ([0, 255] : List Nat), b < 256)
      ∧ (∀ b ∈ H0 ('p' :: 'w' :: []) [0, 255], b < 256)
      ∧ check_password H0 (hash_password H0 [0, 255] ('p' :: 'w' :: []))
          ('p' :: 'w' :: []) = true)
  ∧ (hexColonWellFormed ('x' :: []) = false
      ∧ check_password H0 ('x' :: []) ('p' :: []) = false) :=
  ⟨⟨by decide, by decide,
    C7_password_roundtrip.1 H0 [0, 255] ('p' :: 'w' :: []) (by decide) (by decide)⟩,
   ⟨by decide, C7_password_roundtrip.2 H0 ('x' :: []) ('p' :: []) (by decide)⟩⟩

/-- Packing a valid code point and reading it back is the identity. -/
theorem char_toNat_ofNat (n : Nat) (h : n.isValidChar) : (Char.ofNat n).toNat = n := by
  rw [Char.ofNat, dif_pos h]
  rfl

/-- ASCII lowercasing maps no character onto a `LIKE` metacharacter that was
not one already: the image of the shifted range is the lowercase letters. -/
theorem toLower_not_meta {c : Char} (h : isMetaChar c = false) :
    isMetaChar c.toLower = false := by
  unfold Char.toLower
  dsimp only
  split
  case isTrue h2 =>
    obtain ⟨h2a, h2b⟩ := h2
    have hv : (Char.toNat c + 32).isValidChar := Or.inl (by omega)
    have ht := char_toNat_ofNat _ hv
    simp only [isMetaChar, Bool.or_eq_false_iff, decide_eq_false_iff_not] at h ⊢
    have h37 : Char.toNat '%' = 37 := rfl
    have h95 : Char.toNat '_' = 95 := rfl
    have h92 : Char.toNat '\\' = 92 := rfl
    refine ⟨⟨fun he => ?_, fun he => ?_⟩, fun he => ?_⟩ <;>
      · have hn := congrArg Char.toNat he
        rw [ht] at hn
        simp only [h37, h95, h92] at hn
        omega
  case isFalse => exact h

/-- The empty suffix belongs to every tail list. -/
theorem nil_mem_allTails (s : List Char) : [] ∈ allTails s := by
  induction s with
  | nil => simp [allTails]
  | cons c rest ih => simp [allTails, ih]

/-- Equation of the matcher on a leading percent. -/
theorem likeMatch_percent (pt : List Char) (s : List Char) :
    likeMatch ('%' :: pt) s = (allTails s).any (likeMatch pt) := by
  rw [likeMatch.eq_def]
  dsimp only
  rw [if_pos rfl]

/-- A pattern consisting of one percent matches everything. -/
theorem likeMatch_percent_nil (s : List Char) : likeMatch ['%'] s = true := by
  rw [likeMatch_percent]
  exact List.any_eq_true.mpr ⟨[], nil_mem_allTails s, rfl⟩

/-- Unpacking of the metacharacter test. -/
theorem not_meta_spec {a : Char} (h : isMetaChar a = false) :
    a ≠ '%' ∧ a ≠ '_' ∧ a ≠ '\\' := by
  have h2 := h
  simp [isMetaChar] at h2
  exact ⟨h2.1.1, h2.1.2, h2.2⟩

/-- A metacharacter-free pattern followed by a percent matches exactly the
texts it prefixes. -/
theorem likeMatch_literal_percent (t : List Char)
    (ht : ∀ c ∈ t, isMetaChar c = false) :
    ∀ s, likeMatch (t ++ ['%']) s = isPrefixB t s := by
  induction t with
  | nil =>
    intro s
    simp [likeMatch_percent_nil, isPrefixB]
  | cons a t ih =>
    intro s
    obtain ⟨h1, h2, h3⟩ := not_meta_spec (ht a (List.mem_cons_self a t))
    have ht2 : ∀ c ∈ t, isMetaChar c = false :=
      fun c hc => ht c (List.mem_cons_of_mem a hc)
    cases s with
    | nil =>
      rw [List.cons_append, likeMatch.eq_def]
      dsimp only
      rw [if_neg h1, if_neg h3, if_neg h2]
      simp [isPrefixB]
    | cons c st =>
      rw [List.cons_append, likeMatch.eq_def]
      dsimp only
      rw [if_neg h1, if_neg h3, if_neg h2]
      simp [isPrefixB, ih ht2]

/-- Claim C4 as amended: for a filter text free of the `LIKE` metacharacters
percent, underscore and backslash, the built `ILIKE` predicate holds exactly
when the text occurs case-insensitively as a substring of the field. -/
theorem C4_ilike_substring (input name : List Char)
    (h : ∀ c ∈ input, isMetaChar c = false) :
    ilikeContains input name = containsSubstring (lowerChars name) (lowerChars input) := by
  unfold ilikeContains pgILike
  have hpct : Char.toLower '%' = '%' := by decide
  have hpat : lowerChars ('%' :: input ++ ['%']) = '%' :: (lowerChars input ++ ['%']) := by
    simp [lowerChars, hpct]
  rw [hpat, likeMatch_percent]
  have hlow : ∀ c ∈ lowerChars input, isMetaChar c = false := by
    intro c hc
    obtain ⟨d, hd, rfl⟩ := List.mem_map.mp hc
    exact toLower_not_meta (h d hd)
  unfold containsSubstring
  congr 1
  funext tl
  exact likeMatch_literal_percent _ hlow tl

/-- Claim C4 counterexample: the raw input `a%b` wrapped as an `ILIKE`
pattern matches the name `aXb`, although `a%b` is not a substring of it —
metacharacters in user input are interpreted, not matched literally. -/
theorem C4_counterexample :
    ilikeContains "a%b".toList "aXb".toList = true
  ∧ containsSubstring (lowerChars "aXb".toList) (lowerChars "a%b".toList) = false := by
  constructor
  · decide
  · decide

/-- Witness for C4_ilike_substring on a metacharacter-free input. -/
theorem C4_witness :
    (∀ c ∈ "Mario".toList, isMetaChar c = false)
  ∧ ilikeContains "Mario".toList "SUPER MARIO WORLD".toList
      = containsSubstring (lowerChars "SUPER MARIO WORLD".toList)
          (lowerChars "Mario".toList) :=
  ⟨by decide, C4_ilike_substring "Mario".toList "SUPER MARIO WORLD".toList (by decide)⟩

/-- The `DISTINCT ON` pass yields a subset of its input rows. -/
theorem mem_distinctOnGame {r : JoinedRow} :
    ∀ (seen : List Nat) (l : List JoinedRow), r ∈ distinctOnGame seen l → r ∈ l := by
  intro seen l
  induction l generalizing seen with
  | nil =>
    intro h
    simp [distinctOnGame] at h
  | cons x rest ih =>
    intro h
    rw [distinctOnGame.eq_def] at h
    dsimp only at h
    by_cases hx : x.gameid ∈ seen
    · rw [if_pos hx] at h
      exact List.mem_cons_of_mem x (ih seen h)
    · rw [if_neg hx] at h
      rcases List.mem_cons.mp h with rfl | h2
      · exact List.mem_cons_self _ _
      · exact List.mem_cons_of_mem x (ih _ h2)

/-- Shape of a member of an optionalised left-join column. -/
theorem mem_leftOpts {ms : List Nat} {o : Option Nat} (h : o ∈ leftOpts ms) :
    (ms = [] ∧ o = none) ∨ ∃ x ∈ ms, o = some x := by
  unfold leftOpts at h
  by_cases he : ms.isEmpty
  · rw [if_pos he] at h
    exact Or.inl ⟨List.isEmpty_iff.mp he, List.mem_singleton.mp h⟩
  · rw [if_neg he] at h
    obtain ⟨x, hx, hxo⟩ := List.mem_map.mp h
    exact Or.inr ⟨x, hx, hxo.symm⟩

/-- The genre column of the join is empty exactly when the game matches no
top genre. -/
theorem genre_ms_iff (t : Tables) (uid g : Nat) :
    ((t.gamegenre.filter (fun r => r.1 = g && r.2 ∈ topGenres t uid)).map
        (fun r => r.2) = [])
      ↔ ¬ matchesTopGenre t uid g := by
  rw [List.map_eq_nil_iff, List.filter_eq_nil_iff]
  unfold matchesTopGenre
  constructor
  · rintro hall ⟨r, hr, h1, h2⟩
    exact hall r hr (by simp [h1, h2])
  · intro hno r hr hcond
    simp only [Bool.and_eq_true, decide_eq_true_eq] at hcond
    exact hno ⟨r, hr, hcond.1, hcond.2⟩

/-- The developer column of the join is empty exactly when the game matches
no top developer. -/
theorem dev_ms_iff (t : Tables) (uid g : Nat) :
    ((t.gamedeveloper.filter (fun r => r.1 = g && r.2 ∈ topDevelopers t uid)).map
        (fun r => r.2) = [])
      ↔ ¬ matchesTopDev t uid g := by
  rw [List.map_eq_nil_iff, List.filter_eq_nil_iff]
  unfold matchesTopDev
  constructor
  · rintro hall ⟨r, hr, h1, h2⟩
    exact hall r hr (by simp [h1, h2])
  · intro hno r hr hcond
    simp only [Bool.and_eq_true, decide_eq_true_eq] at hcond
    exact hno ⟨r, hr, hcond.1, hcond.2⟩

/-- Nullability of the two joined columns of a row coincides with the two
game-level match relations. -/
theorem recJoin_shape (t : Tables) (uid : Nat) (j : JoinedRow)
    (hj : j ∈ recJoinRows t uid) :
    (j.ggGenre.isSome = true ↔ matchesTopGenre t uid j.gameid)
  ∧ (j.gdCompany.isSome = true ↔ matchesTopDev t uid j.gameid) := by
  unfold recJoinRows at hj
  obtain ⟨g, hg, hrow⟩ := List.mem_flatMap.mp hj
  obtain ⟨ggo, hggo, hrow2⟩ := List.mem_flatMap.mp hrow
  obtain ⟨gdo, hgdo, hj2⟩ := List.mem_map.mp hrow2
  subst hj2
  constructor
  · show ggo.isSome = true ↔ matchesTopGenre t uid g.gameid
    rcases mem_leftOpts hggo with ⟨hnil, rfl⟩ | ⟨x, hx, rfl⟩
    · simp only [Option.isSome_none]
      constructor
      · intro hfalse
        exact absurd hfalse (by simp)
      · intro hmatch
        exact absurd ((genre_ms_iff t uid g.gameid).mp hnil) (not_not_intro hmatch)
    · simp only [Option.isSome_some, true_iff]
      obtain ⟨r, hrf, hr2⟩ := List.mem_map.mp hx
      have hfilt := List.mem_filter.mp hrf
      have hcond := hfilt.2
      simp only [Bool.and_eq_true, decide_eq_true_eq] at hcond
      exact ⟨r, hfilt.1, hcond.1, hcond.2⟩
  · show gdo.isSome = true ↔ matchesTopDev t uid g.gameid
    rcases mem_leftOpts hgdo with ⟨hnil, rfl⟩ | ⟨x, hx, rfl⟩
    · simp only [Option.isSome_none]
      constructor
      · intro hfalse
        exact absurd hfalse (by simp)
      · intro hmatch
        exact absurd ((dev_ms_iff t uid g.gameid).mp hnil) (not_not_intro hmatch)
    · simp only [Option.isSome_some, true_iff]
      obtain ⟨r, hrf, hr2⟩ := List.mem_map.mp hx
      have hfilt := List.mem_filter.mp hrf
      have hcond := hfilt.2
      simp only [Bool.and_eq_true, decide_eq_true_eq] at hcond
      exact ⟨r, hfilt.1, hcond.1, hcond.2⟩

/-- Claim C2: every row the scored recommendation query returns is for a game
in none of the collections of the user, its score is 3 for a top-genre match
plus 3 for a top-developer match, and hence always 3 or 6. -/
theorem C2_recommendation_scoring (t : Tables) (uid : Nat) (row : RecRow)
    (hrow : row ∈ recsScoredQuery t uid) :
    row.gameid ∉ userGames t uid
  ∧ row.score = (if matchesTopGenre t uid row.gameid then 3 else 0)
      + (if matchesTopDev t uid row.gameid then 3 else 0)
  ∧ (row.score = 3 ∨ row.score = 6) := by
  unfold recsScoredQuery at hrow
  have hrow2 := List.take_subset _ _ hrow
  obtain ⟨j, hjd, hjp⟩ := List.mem_map.mp hrow2
  subst hjp
  have hjs := mem_distinctOnGame _ _ hjd
  rw [List.mem_insertionSort] at hjs
  unfold recFiltered at hjs
  obtain ⟨hjrows, hcond⟩ := List.mem_filter.mp hjs
  simp only [Bool.and_eq_true, Bool.or_eq_true, decide_eq_true_eq] at hcond
  obtain ⟨hiff_g, hiff_d⟩ := recJoin_shape t uid j hjrows
  dsimp only
  refine ⟨hcond.1, ?_, ?_⟩
  · unfold rowScore
    rw [if_congr hiff_g rfl rfl, if_congr hiff_d rfl rfl]
  · have hor := hcond.2
    cases hgg : j.ggGenre.isSome <;> cases hgd : j.gdCompany.isSome <;>
      simp_all [rowScore]

/-- Witness for C2: the query recommends game 1 with score 3, and the claim
conclusions hold for that row. -/
theorem C2_witness :
    ({ gameid := 1, title := "A", reason := "Favorite Genre", score := 3,
       avgRating := ⟨0, 1⟩ } : RecRow) ∈ recsScoredQuery recT2 7
  ∧ (1 : Nat) ∉ userGames recT2 7 :=
  ⟨by decide,
   (C2_recommendation_scoring recT2 7
     { gameid := 1, title := "A", reason := "Favorite Genre", score := 3,
       avgRating := ⟨0, 1⟩ } (by decide)).1⟩

/-- Claim C3 evaluation at the failing input: the two candidates tie at
score 3, yet the returned list carries the 2-star game before the 5-star one
(the `DISTINCT ON` forces `ORDER BY g.gameid` first, so score and rating
never order the final list), refuting tie-breaking by average rating.  The
fallback half of the claim holds: with no scored candidates the fallback
returns the non-owned games averaging at least 4, best first, and the 3-star
game is cut. -/
theorem C3_divergence :
    recsScoredQuery recT3 7
      = [{ gameid := 1, title := "A", reason := "Favorite Genre", score := 3,
           avgRating := ⟨2, 1⟩ },
         { gameid := 2, title := "B", reason := "Favorite Genre", score := 3,
           avgRating := ⟨5, 1⟩ }]
  ∧ ¬ List.Sorted (fun a b : RecRow => decValueLe b.avgRating a.avgRating)
      (recsScoredQuery recT3 7)
  ∧ recsScoredQuery recT4 9 = []
  ∧ load_recommendations recT4 9 = recsFallbackQuery recT4 9
  ∧ recsFallbackQuery recT4 9
      = [{ gameid := 2, title := "B", reason := "Highly Rated", score := 3,
           avgRating := ⟨5, 1⟩ },
         { gameid := 1, title := "A", reason := "Highly Rated", score := 3,
           avgRating := ⟨4, 1⟩ }] := by
  refine ⟨by decide, by decide, by decide, by decide, by decide⟩

/-- Claim C8 evaluation at the failing input: a missing rating reaches the
`My RatingNum` cell as the text `None`, `float` raises on it inside the one
`try` of `sort_column`, and the whole sort aborts with the order unchanged —
instead of treating the missing rating as -1 as the claim (and the dead
`or -1` fallback in the code) intends; with every row rated the same click
does sort. -/
theorem C8_divergence :
    myRatingNumCell none = "None"
  ∧ sort_column "My Rating" false [rowRated5, rowUnrated] = [rowRated5, rowUnrated]
  ∧ claimedMyRatingKey (some 5) > claimedMyRatingKey none
  ∧ sort_column "My Rating" false [rowRated5, rowRated2] = [rowRated2, rowRated5] := by
  refine ⟨rfl, by decide, by decide, by decide⟩

end VGT
